import Mathlib

/-!
Verification development for the resyft PDF form segmentation and
classification engine (`resyft-ai-service/main.py`).

The Python source is shallowly embedded: pure helper functions become Lean
functions, the `/analyze-form` endpoint body becomes a total function over an
explicit "open result" (the `try/except` boundary becomes a sum type), and PDF
page coordinates (floats in the source, used only for ordering, subtraction
and threshold comparisons) are modelled as exact integers.

Python string primitives are modelled over `String.data` character lists so
that every definition is executable and kernel-reducible:
  - `str.lower()`   -> `pyLower` (ASCII case folding, `Char.toLower`)
  - `str.strip()`   -> `pyStrip` (drop whitespace from both ends)
  - `x in s`        -> `pyContains` (substring containment)
  - `s.startswith`  -> `pyStartsWith`, `s.endswith` -> `pyEndsWith`
  - `len(s)`        -> `pyLen` (code-point count)
  - `s[:n]`         -> `pyTake`
  - `s.replace(":", "")` -> `removeColons` (removes every colon)
  - `" ".join(xs)`  -> `String.intercalate " " xs`
  - `s or default` (for `None`/empty-string falsiness) -> `pyOr`
-/

namespace Resyft

/-- Python `str.lower()` restricted to ASCII case folding. -/
def pyLower (s : String) : String :=
  ⟨s.data.map Char.toLower⟩

/-- Python `str.strip()`: remove leading and trailing whitespace. -/
def pyStrip (s : String) : String :=
  ⟨((s.data.dropWhile Char.isWhitespace).reverse.dropWhile Char.isWhitespace).reverse⟩

/-- Python `len(s)`: number of code points. -/
def pyLen (s : String) : Nat :=
  s.data.length

/-- Python `needle in haystack`: substring containment. -/
def pyContains (hay pat : String) : Bool :=
  hay.data.tails.any (fun t => pat.data.isPrefixOf t)

/-- Python `s.startswith(p)`. -/
def pyStartsWith (s p : String) : Bool :=
  p.data.isPrefixOf s.data

/-- Python `s.endswith(p)`. -/
def pyEndsWith (s p : String) : Bool :=
  p.data.reverse.isPrefixOf s.data.reverse

/-- Python `s[:n]`. -/
def pyTake (s : String) (n : Nat) : String :=
  ⟨s.data.take n⟩

/-- Python `s.replace(":", "")`: removing every (single-character) colon. -/
def removeColons (s : String) : String :=
  ⟨s.data.filter (fun c => c ≠ ':')⟩

/-- Python `x or default` where `x` is an optional string and both `None` and
the empty string are falsy. -/
def pyOr (x : Option String) (default : String) : String :=
  match x with
  | none => default
  | some s => if s = "" then default else s

/-- Python `str.isupper()` (ASCII model): at least one cased character and no
lowercase character. -/
def pyIsUpper (s : String) : Bool :=
  s.data.any (fun c => c.isLower || c.isUpper) && s.data.all (fun c => !c.isLower)

/-- `pyContains` agrees with the mathematical infix relation on the
underlying character lists. -/
theorem pyContains_iff_infix (hay pat : String) :
    pyContains hay pat = true ↔ pat.data <:+: hay.data := by
  unfold pyContains
  rw [List.any_eq_true]
  constructor
  · rintro ⟨t, ht, hp⟩
    rw [List.mem_tails] at ht
    rw [List.isPrefixOf_iff_prefix] at hp
    exact List.infix_iff_prefix_suffix.mpr ⟨t, hp, ht⟩
  · intro h
    obtain ⟨t, hp, ht⟩ := List.infix_iff_prefix_suffix.mp h
    exact ⟨t, (List.mem_tails t hay.data).mpr ht, List.isPrefixOf_iff_prefix.mpr hp⟩

/-! ## PII detector (`main.py` lines 61-66) -/

/-- `PII_KEYWORDS` from `main.py`, verbatim. -/
def PII_KEYWORDS : List String :=
  ["social security", "ssn", "date of birth", "dob", "driver license",
   "passport", "bank account", "credit card", "tax id", "phone", "email",
   "address", "salary", "income", "signature"]

/-- `check_pii(text)`: true iff some keyword occurs in the lower-cased text. -/
def check_pii (text : String) : Bool :=
  PII_KEYWORDS.any (fun kw => pyContains (pyLower text) kw)

/-! ## Block/line classifier (`main.py` lines 147-174)

`classify_text_type(text, bbox, page_width, page_height)` is an ordered rule
cascade.  The source computes `width = x1 - x0` but never uses it, and never
uses `page_width`; the geometry it does use is `y0 < page_height * 0.15`,
which over exact arithmetic is transcribed integer-scaled as
`100 * y0 < 15 * page_height`. -/

/-- A `(x0, y0, x1, y1)` rectangle, used both for text-line bounding boxes and
widget rects. Coordinates are modelled as exact integers. -/
structure Rect4 where
  x0 : Int
  y0 : Int
  x1 : Int
  y1 : Int

/-- The positional part of the section-header test:
`y0 < page_height * 0.15`, written integer-scaled. -/
def headerPosCond (bbox : Rect4) (page_height : Int) : Bool :=
  100 * bbox.y0 < 15 * page_height

/-- Rule-1 outer guard: `len(text) < 50 and (y0 < page_height * 0.15 or
text.endswith(':'))`. -/
def headerCond (text : String) (bbox : Rect4) (page_height : Int) : Bool :=
  decide (pyLen text < 50) && (headerPosCond bbox page_height || pyEndsWith text ":")

/-- Rule-1 inner guard: a header keyword occurs in the lowered, stripped
text. -/
def headerKwCond (text : String) : Bool :=
  ["section", "part", "step", "instructions", "information"].any
    (fun kw => pyContains (pyStrip (pyLower text)) kw)

/-- Rule 2: `len(text) < 40 and (text.endswith(':') or text.endswith('?'))`. -/
def labelCond (text : String) : Bool :=
  decide (pyLen text < 40) && (pyEndsWith text ":" || pyEndsWith text "?")

/-- Rule 3: the lowered, stripped text starts with one of the checkbox
markers `('yes', 'no', '[ ]', '[x]', '☐', '☑')`. -/
def checkboxCond (text : String) : Bool :=
  ["yes", "no", "[ ]", "[x]", "☐", "☑"].any
    (fun p => pyStartsWith (pyStrip (pyLower text)) p)

/-- Rule 4: `'signature' in text_lower or 'sign here' in text_lower or
'date:' in text_lower`. -/
def signatureCond (text : String) : Bool :=
  pyContains (pyStrip (pyLower text)) "signature" ||
  pyContains (pyStrip (pyLower text)) "sign here" ||
  pyContains (pyStrip (pyLower text)) "date:"

/-- `classify_text_type` from `main.py`: the rule cascade, first match wins.
The source's order is Section Header, Label, Checkbox, Signature,
Instructions, then the `"Text"` fallback. -/
def classify_text_type (text : String) (bbox : Rect4)
    (page_width page_height : Int) : String :=
  if headerCond text bbox page_height && headerKwCond text then "Section Header"
  else if labelCond text then "Label"
  else if checkboxCond text then "Checkbox"
  else if signatureCond text then "Signature"
  else if decide (100 < pyLen text) then "Instructions"
  else "Text"

/-! ## Document model and segmentation engine (`main.py` lines 34-59, 176-272)

The `/analyze-form` endpoint walks the PyMuPDF structure
`page.get_text("dict")["blocks"] -> lines -> spans` and `page.widgets()`.
That input structure is modelled verbatim; the engine body (the code between
`doc = fitz.open(...)` and the success `return`) becomes `segment_document`,
and the surrounding `try/except` boundary becomes `analyze_form` over an
explicit open/read outcome. -/

/-- One span of a PDF text line: only its `"text"` entry is read. -/
structure Span where
  text : String

/-- One PDF text line: its bounding box and its spans. -/
structure PdfLine where
  bbox : Rect4
  spans : List Span

/-- One PyMuPDF block: its `"type"` entry (0 = text block) and its lines. -/
structure PdfBlock where
  btype : Int
  lines : List PdfLine

/-- One interactive form widget.  `field_name`, `field_value` and
`field_type_string` may be `None`; `rect` may be absent. -/
structure Widget where
  field_name : Option String
  field_value : Option String
  field_type_string : Option String
  rect : Option Rect4

/-- One PDF page: dimensions, text blocks and widgets. -/
structure PdfPage where
  width : Int
  height : Int
  blocks : List PdfBlock
  widgets : List Widget

/-- `FormSegment` from `main.py` (pydantic model), coordinates as exact
integers. -/
structure FormSegment where
  text : String
  type : String
  page_number : Nat
  top : Int
  left : Int
  width : Int
  height : Int
  page_width : Int
  page_height : Int
  is_pii : Bool

/-- `ExtractedFormField` from `main.py`; the engine always returns an empty
list of these, so the (float) confidence is modelled as an integer. -/
structure ExtractedFormField where
  name : String
  value : String
  type : String
  confidence : Int

/-- `FormAnalysisResponse` from `main.py`; `form_type` and `error` default to
`None` exactly as in the pydantic model. -/
structure FormAnalysisResponse where
  success : Bool
  filename : String
  num_pages : Nat
  segments : List FormSegment
  fields : List ExtractedFormField
  form_type : Option String := none
  error : Option String := none

/-- `line_text = " ".join(span.get("text", "") for span in line.get("spans", []))`. -/
def lineText (l : PdfLine) : String :=
  String.intercalate " " (l.spans.map (fun s => s.text))

/-- The `FormSegment(...)` built for one non-empty text line
(`main.py` lines 205-217). -/
def mkLineSegment (pageIdx : Nat) (pw ph : Int) (l : PdfLine) : FormSegment :=
  { text := pyStrip (lineText l)
    type := classify_text_type (lineText l) l.bbox pw ph
    page_number := pageIdx + 1
    top := l.bbox.y0
    left := l.bbox.x0
    width := l.bbox.x1 - l.bbox.x0
    height := l.bbox.y1 - l.bbox.y0
    page_width := pw
    page_height := ph
    is_pii := check_pii (lineText l) }

/-- The widget-type mapping of `main.py` lines 227-236. -/
def map_widget_type (field_type : String) : String :=
  if field_type = "Text" ∨ field_type = "Tx" then "Form Field"
  else if field_type = "CheckBox" ∨ field_type = "Btn" then "Checkbox"
  else if field_type = "ComboBox" ∨ field_type = "Choice" ∨ field_type = "Ch" then "Dropdown"
  else if field_type = "Sig" then "Signature"
  else "Form Field"

/-- `display_text = f"{field_name}: {field_value}" if field_value else
field_name`, after the `or`-defaulting of lines 222-223. -/
def widgetDisplayText (w : Widget) : String :=
  let field_name := pyOr w.field_name "Field"
  let field_value := pyOr w.field_value ""
  if field_value = "" then field_name else field_name ++ ": " ++ field_value

/-- The `FormSegment(...)` built for one widget with a rect
(`main.py` lines 240-251). -/
def mkWidgetSegment (pageIdx : Nat) (pw ph : Int) (w : Widget) (r : Rect4) : FormSegment :=
  { text := widgetDisplayText w
    type := map_widget_type (pyOr w.field_type_string "Unknown")
    page_number := pageIdx + 1
    top := r.y0
    left := r.x0
    width := r.x1 - r.x0
    height := r.y1 - r.y0
    page_width := pw
    page_height := ph
    is_pii := check_pii (widgetDisplayText w) }

/-- The text-line pass over one page: only blocks with `type == 0`, only
lines whose joined span text is non-empty after stripping, in source order. -/
def pageLineSegments (pageIdx : Nat) (p : PdfPage) : List FormSegment :=
  p.blocks.flatMap (fun b =>
    if b.btype = 0 then
      b.lines.filterMap (fun l =>
        if pyStrip (lineText l) = "" then none
        else some (mkLineSegment pageIdx p.width p.height l))
    else [])

/-- The widget pass over one page: only widgets with a rect, in source
order. -/
def pageWidgetSegments (pageIdx : Nat) (p : PdfPage) : List FormSegment :=
  p.widgets.filterMap (fun w =>
    match w.rect with
    | some r => some (mkWidgetSegment pageIdx p.width p.height w r)
    | none => none)

/-- All segments of one page: text lines first, then widgets, as in the
source loop body. -/
def pageSegments (pageIdx : Nat) (p : PdfPage) : List FormSegment :=
  pageLineSegments pageIdx p ++ pageWidgetSegments pageIdx p

/-- The `for page_num in range(len(doc))` loop, carrying the running page
index. -/
def segmentPagesFrom : Nat → List PdfPage → List FormSegment
  | _, [] => []
  | i, p :: rest => pageSegments i p ++ segmentPagesFrom (i + 1) rest

/-- The full segmentation pass of `/analyze-form`. -/
def segment_document (doc : List PdfPage) : List FormSegment :=
  segmentPagesFrom 0 doc

/-- Outcome of `fitz.open` / reading the upload: either the parsed document
or a raised exception's message. -/
inductive PdfOpenResult where
  | ok (doc : List PdfPage)
  | err (msg : String)

/-- The `/analyze-form` endpoint body (`main.py` lines 176-272): on success
the response carries the segments and `fields=[]`, leaving `form_type` at its
`None` default; the `except` branch returns the structured failure response. -/
def analyze_form (filename : Option String) (r : PdfOpenResult) : FormAnalysisResponse :=
  match r with
  | .ok doc =>
      { success := true
        filename := pyOr filename "file.pdf"
        num_pages := doc.length
        segments := segment_document doc
        fields := [] }
  | .err msg =>
      { success := false
        filename := pyOr filename "file.pdf"
        num_pages := 0
        segments := []
        fields := []
        error := some msg }

/-- Count of non-empty text lines of a page (lines of text blocks whose
joined span text is non-empty after stripping). -/
def pageTextLineCount (p : PdfPage) : Nat :=
  ((p.blocks.filter (fun b => b.btype = 0)).flatMap (fun b => b.lines)).countP
    (fun l => pyStrip (lineText l) ≠ "")

/-- Count of widgets with a rect on a page. -/
def pageWidgetCount (p : PdfPage) : Nat :=
  p.widgets.countP (fun w => w.rect.isSome)

/-! ## Structural lemmas about the segmentation engine -/

/-- The line pass over one list of lines emits one segment per line with
non-empty stripped text. -/
theorem lines_filterMap_length (i : Nat) (pw ph : Int) (ls : List PdfLine) :
    (ls.filterMap (fun l =>
      if pyStrip (lineText l) = "" then none
      else some (mkLineSegment i pw ph l))).length
      = ls.countP (fun l => pyStrip (lineText l) ≠ "") := by
  induction ls with
  | nil => rfl
  | cons l rest ih =>
    by_cases h : pyStrip (lineText l) = "" <;>
      simp [List.filterMap_cons, List.countP_cons, h, ih]

/-- The widget pass emits one segment per widget with a rect. -/
theorem widgets_filterMap_length (i : Nat) (pw ph : Int) (ws : List Widget) :
    (ws.filterMap (fun w =>
      match w.rect with
      | some r => some (mkWidgetSegment i pw ph w r)
      | none => none)).length
      = ws.countP (fun w => w.rect.isSome) := by
  induction ws with
  | nil => rfl
  | cons w rest ih =>
    rcases hw : w.rect with _ | r <;>
      simp [List.filterMap_cons, List.countP_cons, hw, ih]

/-- Per-page line-segment count. -/
theorem pageLineSegments_length (i : Nat) (p : PdfPage) :
    (pageLineSegments i p).length = pageTextLineCount p := by
  unfold pageLineSegments pageTextLineCount
  induction p.blocks with
  | nil => rfl
  | cons b rest ih =>
    by_cases hb : b.btype = 0
    · simp [List.flatMap_cons, List.filter_cons, hb, List.countP_append, ih,
        lines_filterMap_length]
    · simp [List.flatMap_cons, List.filter_cons, hb, ih]

/-- Per-page widget-segment count. -/
theorem pageWidgetSegments_length (i : Nat) (p : PdfPage) :
    (pageWidgetSegments i p).length = pageWidgetCount p := by
  unfold pageWidgetSegments pageWidgetCount
  exact widgets_filterMap_length i p.width p.height p.widgets

/-- Every segment emitted for page index `i` carries `page_number = i + 1`. -/
theorem mem_pageSegments_page_number (i : Nat) (p : PdfPage) :
    ∀ s ∈ pageSegments i p, s.page_number = i + 1 := by
  intro s hs
  rcases List.mem_append.mp hs with h | h
  · simp only [pageLineSegments, List.mem_flatMap] at h
    obtain ⟨b, _, hsb⟩ := h
    split at hsb
    · obtain ⟨l, _, heq⟩ := List.mem_filterMap.mp hsb
      split at heq
      · cases heq
      · rw [Option.some.injEq] at heq
        subst heq
        rfl
    · exact absurd hsb (List.not_mem_nil s)
  · simp only [pageWidgetSegments, List.mem_filterMap] at h
    obtain ⟨w, _, heq⟩ := h
    rcases hr : w.rect with _ | r <;> rw [hr] at heq
    · cases heq
    · rw [Option.some.injEq] at heq
      subst heq
      rfl

/-- Every segment emitted from page index `k` onward has
`page_number ≥ k + 1`. -/
theorem segmentPagesFrom_page_lb (k : Nat) (pages : List PdfPage) :
    ∀ s ∈ segmentPagesFrom k pages, k + 1 ≤ s.page_number := by
  induction pages generalizing k with
  | nil => intro s hs; simp [segmentPagesFrom] at hs
  | cons p ps ih =>
    intro s hs
    rcases List.mem_append.mp hs with h | h
    · rw [mem_pageSegments_page_number k p s h]
    · have := ih (k + 1) s h
      omega

/-- The output length is the sum over pages of non-empty text lines plus
widgets with a rect. -/
theorem segmentPagesFrom_length (k : Nat) (pages : List PdfPage) :
    (segmentPagesFrom k pages).length
      = (pages.map (fun p => pageTextLineCount p + pageWidgetCount p)).sum := by
  induction pages generalizing k with
  | nil => rfl
  | cons p ps ih =>
    simp [segmentPagesFrom, pageSegments, List.length_append,
      pageLineSegments_length, pageWidgetSegments_length, ih]
    omega

/-- Page numbers appear in ascending order in the output. -/
theorem segmentPagesFrom_sorted (k : Nat) (pages : List PdfPage) :
    List.Sorted (· ≤ ·) ((segmentPagesFrom k pages).map (fun s => s.page_number)) := by
  induction pages generalizing k with
  | nil => simp [segmentPagesFrom]
  | cons p ps ih =>
    rw [segmentPagesFrom, List.map_append]
    refine List.pairwise_append.mpr ⟨?_, ih (k + 1), ?_⟩
    · refine List.pairwise_of_forall_mem_list ?_
      intro a ha b hb
      obtain ⟨s, hs, rfl⟩ := List.mem_map.mp ha
      obtain ⟨t, ht, rfl⟩ := List.mem_map.mp hb
      rw [mem_pageSegments_page_number k p s hs,
        mem_pageSegments_page_number k p t ht]
    · intro a ha b hb
      obtain ⟨s, hs, rfl⟩ := List.mem_map.mp ha
      obtain ⟨t, ht, rfl⟩ := List.mem_map.mp hb
      have h1 := mem_pageSegments_page_number k p s hs
      have h2 := segmentPagesFrom_page_lb (k + 1) ps t ht
      omega

/-- Filtering the output on `page_number = k + i + 1` recovers exactly page
`i`'s segments: the text-line segments, then the widget segments, in source
order. -/
theorem segmentPagesFrom_filter (pages : List PdfPage) :
    ∀ (k i : Nat) (p : PdfPage), pages[i]? = some p →
      (segmentPagesFrom k pages).filter (fun s => s.page_number = k + i + 1)
        = pageSegments (k + i) p := by
  induction pages with
  | nil => intro k i p h; simp at h
  | cons q qs ih =>
    intro k i p h
    rw [segmentPagesFrom, List.filter_append]
    cases i with
    | zero =>
      rw [List.getElem?_cons] at h
      simp only [if_pos, Option.some.injEq] at h
      subst h
      have h1 : (pageSegments k q).filter (fun s => s.page_number = k + 0 + 1)
          = pageSegments k q := by
        refine List.filter_eq_self.mpr ?_
        intro s hs
        simp [mem_pageSegments_page_number k q s hs]
      have h2 : (segmentPagesFrom (k + 1) qs).filter
          (fun s => s.page_number = k + 0 + 1) = [] := by
        refine List.filter_eq_nil_iff.mpr ?_
        intro s hs
        have := segmentPagesFrom_page_lb (k + 1) qs s hs
        simp only [decide_eq_true_eq]
        omega
      rw [h1, h2, List.append_nil, Nat.add_zero]
    | succ j =>
      rw [List.getElem?_cons] at h
      simp only [Nat.succ_ne_zero, if_false, Nat.add_sub_cancel] at h
      have h1 : (pageSegments k q).filter
          (fun s => s.page_number = k + (j + 1) + 1) = [] := by
        refine List.filter_eq_nil_iff.mpr ?_
        intro s hs
        have := mem_pageSegments_page_number k q s hs
        simp only [decide_eq_true_eq]
        omega
      have h2 := ih (k + 1) j p h
      have harith : k + (j + 1) + 1 = k + 1 + j + 1 := by omega
      have harith2 : k + 1 + j = k + (j + 1) := by omega
      rw [h1, List.nil_append, harith]
      rw [h2, harith2]

/-! ## Claims C2, C3, C5, C9 -/

/-- C2: the engine emits exactly one segment per non-empty text line plus one
per widget with a rect (count conjunct), page numbers ascend through the
output (order conjunct), and the segments carrying page number `i + 1` are
exactly page `i`'s text-line segments followed by its widget segments, each
in source order (within-page order conjunct). -/
theorem segment_document_count_and_order (doc : List PdfPage) :
    (segment_document doc).length
      = (doc.map (fun p => pageTextLineCount p + pageWidgetCount p)).sum ∧
    List.Sorted (· ≤ ·) ((segment_document doc).map (fun s => s.page_number)) ∧
    ∀ (i : Nat) (p : PdfPage), doc[i]? = some p →
      (segment_document doc).filter (fun s => s.page_number = i + 1)
        = pageLineSegments i p ++ pageWidgetSegments i p := by
  refine ⟨segmentPagesFrom_length 0 doc, segmentPagesFrom_sorted 0 doc, ?_⟩
  intro i p h
  have := segmentPagesFrom_filter doc 0 i p h
  simpa [pageSegments] using this

/-- A concrete example page: one text block with a kept line and a dropped
whitespace-only line, one widget with a rect and one without. -/
def exPage : PdfPage :=
  { width := 600
    height := 800
    blocks := [⟨0, [⟨⟨10, 20, 200, 30⟩, [⟨"Name:"⟩]⟩, ⟨⟨10, 40, 200, 50⟩, [⟨"  "⟩]⟩]⟩]
    widgets := [⟨some "name", some "John", some "Text", some ⟨10, 60, 120, 70⟩⟩,
                ⟨some "skip", none, some "Text", none⟩] }

/-- The example single-page document. -/
def exDoc : List PdfPage := [exPage]

/-- C2 witness: the within-page filter equation instantiated on the concrete
one-page document. -/
theorem segment_document_count_and_order_witness :
    exDoc[0]? = some exPage ∧
    (segment_document exDoc).filter (fun s => s.page_number = 0 + 1)
      = pageLineSegments 0 exPage ++ pageWidgetSegments 0 exPage :=
  ⟨rfl, (segment_document_count_and_order exDoc).2.2 0 exPage rfl⟩

/-- A concrete document whose only line mentions tax keywords. -/
def taxDoc : List PdfPage :=
  [{ width := 600
     height := 800
     blocks := [⟨0, [⟨⟨10, 20, 200, 30⟩, [⟨"Federal tax return 1040"⟩]⟩]⟩]
     widgets := [] }]

/-- C3 counterexample: the joined lower-cased segment text of `taxDoc`
contains `"tax"`, yet the successful response's `form_type` is `none`, not
`"Tax Form"`: the endpoint never populates `form_type`. -/
theorem analyze_form_tax_form_type_none :
    pyContains (pyLower (String.intercalate " "
      ((segment_document taxDoc).map (fun s => s.text)))) "tax" = true ∧
    (analyze_form (some "tax.pdf") (.ok taxDoc)).form_type = none := by
  exact ⟨by decide, rfl⟩

/-- C3 amended: `form_type` is `none` on every path of the engine — the
response model declares the optional field, but `analyze_form` never sets it
and no keyword scan over the segment text exists in the code. -/
theorem analyze_form_form_type_always_none
    (filename : Option String) (r : PdfOpenResult) :
    (analyze_form filename r).form_type = none := by
  cases r <;> rfl

/-- C5: when opening or reading the source raises (the `.err` outcome of the
`try` boundary), the engine returns a structured failure: `success = false`,
an empty segment list and a non-null error message.  `analyze_form` is a
total Lean function, so no exception propagates past it, and the final
conjunct shows a non-empty segment list is only ever returned on the success
path (no partial results). -/
theorem analyze_form_error_boundary (filename : Option String) (msg : String) :
    (analyze_form filename (.err msg)).success = false ∧
    (analyze_form filename (.err msg)).segments = [] ∧
    (analyze_form filename (.err msg)).error = some msg ∧
    (analyze_form filename (.err msg)).error ≠ none ∧
    ∀ r : PdfOpenResult, (analyze_form filename r).success = true ∨
      (analyze_form filename r).segments = [] := by
  refine ⟨rfl, rfl, rfl, by simp [analyze_form], ?_⟩
  intro r
  cases r
  · exact Or.inl rfl
  · exact Or.inr rfl

/-- Appending to a non-empty string stays non-empty. -/
theorem append_left_ne_empty (s t : String) (h : s ≠ "") : s ++ t ≠ "" := by
  intro hc
  apply h
  have hd : (s ++ t).data = ("" : String).data := congrArg String.data hc
  rw [String.data_append] at hd
  have hs : s.data = [] := (List.append_eq_nil.mp hd).1
  apply String.ext
  rw [hs]

/-- C9: a widget with a rect whose `field_name` is `None` or empty gets the
placeholder name `"Field"`: its segment text is `"Field: {value}"` when a
(non-empty) value exists and `"Field"` otherwise, and is never empty. -/
theorem widget_unnamed_placeholder (i : Nat) (pw ph : Int) (w : Widget) (r : Rect4)
    (hname : w.field_name = none ∨ w.field_name = some "") :
    (mkWidgetSegment i pw ph w r).text =
      (if pyOr w.field_value "" = "" then "Field"
       else "Field: " ++ pyOr w.field_value "") ∧
    (mkWidgetSegment i pw ph w r).text ≠ "" := by
  have hn : pyOr w.field_name "Field" = "Field" := by
    rcases hname with h | h <;> simp [pyOr, h]
  have htext : (mkWidgetSegment i pw ph w r).text =
      (if pyOr w.field_value "" = "" then "Field"
       else "Field: " ++ pyOr w.field_value "") := by
    show widgetDisplayText w = _
    rw [widgetDisplayText, hn]
    split <;> rfl
  refine ⟨htext, ?_⟩
  rw [htext]
  by_cases hv : pyOr w.field_value "" = ""
  · rw [if_pos hv]
    decide
  · rw [if_neg hv]
    exact append_left_ne_empty _ _ (by decide)

/-- The example unnamed widget for the C9 witness. -/
def exUnnamedWidget : Widget := ⟨none, some "John", some "Text", some ⟨10, 60, 120, 70⟩⟩

/-- C9 witness: the placeholder equations instantiated on a concrete unnamed
widget carrying a value. -/
theorem widget_unnamed_placeholder_witness :
    (exUnnamedWidget.field_name = none ∨ exUnnamedWidget.field_name = some "") ∧
    (mkWidgetSegment 0 600 800 exUnnamedWidget ⟨10, 60, 120, 70⟩).text =
      (if pyOr exUnnamedWidget.field_value "" = "" then "Field"
       else "Field: " ++ pyOr exUnnamedWidget.field_value "") ∧
    (mkWidgetSegment 0 600 800 exUnnamedWidget ⟨10, 60, 120, 70⟩).text ≠ "" :=
  ⟨Or.inl rfl,
   (widget_unnamed_placeholder 0 600 800 exUnnamedWidget ⟨10, 60, 120, 70⟩ (Or.inl rfl)).1,
   (widget_unnamed_placeholder 0 600 800 exUnnamedWidget ⟨10, 60, 120, 70⟩ (Or.inl rfl)).2⟩

/-! ## Character-level lemmas for case-insensitivity -/

/-- Unfolding equation for `Char.toLower`. -/
theorem char_toLower_eq (c : Char) :
    c.toLower = if c.toNat ≥ 65 ∧ c.toNat ≤ 90 then Char.ofNat (c.toNat + 32) else c := rfl

/-- `Char.ofNat` on a valid code point round-trips through `toNat`. -/
theorem char_toNat_ofNat (n : Nat) (h : n.isValidChar) : (Char.ofNat n).toNat = n := by
  simp [Char.ofNat, dif_pos h, Char.ofNatAux, Char.toNat, UInt32.toNat, BitVec.toNat_ofNatLt]

/-- ASCII lower-casing is idempotent. -/
theorem char_toLower_idem (c : Char) : c.toLower.toLower = c.toLower := by
  rw [char_toLower_eq c]
  by_cases h : c.toNat ≥ 65 ∧ c.toNat ≤ 90
  · rw [if_pos h, char_toLower_eq]
    have hv : Nat.isValidChar (c.toNat + 32) := Or.inl (by omega)
    have ht : (Char.ofNat (c.toNat + 32)).toNat = c.toNat + 32 := char_toNat_ofNat _ hv
    rw [if_neg (by omega)]
  · rw [if_neg h, char_toLower_eq, if_neg h]

/-- `pyLower` is idempotent. -/
theorem pyLower_idem (s : String) : pyLower (pyLower s) = pyLower s := by
  simp [pyLower, List.map_map, Function.comp_def, char_toLower_idem]

/-! ## Claims C1, C4, C7, C8 -/

/-- C1 counterexample: `"Signature:"` contains the substring `"signature"`
(lower-cased) yet the classifier returns `"Label"`, not `"Signature"`: the
Label rule is checked before the Signature rule, so the Signature rule is not
first in the cascade. -/
theorem classify_short_colon_signature_is_label :
    pyContains (pyStrip (pyLower "Signature:")) "signature" = true ∧
    classify_text_type "Signature:" ⟨0, 200, 50, 210⟩ 600 800 = "Label" := by
  decide

/-- C1 amended: for every text containing `"signature"` (any case), the
classifier returns `"Signature"` regardless of length, provided the earlier
Section Header, Label and Checkbox rules did not match; the Signature rule
precedes only the Instructions rule and the `"Text"` fallback. -/
theorem classify_signature_after_earlier_rules
    (text : String) (bbox : Rect4) (page_width page_height : Int)
    (hsig : pyContains (pyStrip (pyLower text)) "signature" = true)
    (hheader : (headerCond text bbox page_height && headerKwCond text) = false)
    (hlabel : labelCond text = false)
    (hcb : checkboxCond text = false) :
    classify_text_type text bbox page_width page_height = "Signature" := by
  unfold classify_text_type
  rw [hheader, hlabel, hcb]
  simp [signatureCond, hsig]

/-- C1 witness: a long-ish text containing `"signature"` that matches none of
the earlier rules is classified `"Signature"`. -/
theorem classify_signature_after_earlier_rules_witness :
    pyContains (pyStrip (pyLower "Contains a signature somewhere")) "signature" = true ∧
    (headerCond "Contains a signature somewhere" ⟨0, 500, 100, 510⟩ 800 &&
      headerKwCond "Contains a signature somewhere") = false ∧
    labelCond "Contains a signature somewhere" = false ∧
    checkboxCond "Contains a signature somewhere" = false ∧
    classify_text_type "Contains a signature somewhere" ⟨0, 500, 100, 510⟩ 600 800 = "Signature" :=
  ⟨by decide, by decide, by decide, by decide,
    classify_signature_after_earlier_rules "Contains a signature somewhere"
      ⟨0, 500, 100, 510⟩ 600 800 (by decide) (by decide) (by decide) (by decide)⟩

/-- C4 counterexample: `"routing number"` is not in the code's keyword list,
so `check_pii` rejects it even though the claim's keyword-set description
includes routing numbers (a keyword is always a substring of itself). -/
theorem check_pii_misses_routing_number : check_pii "routing number" = false := by
  decide

/-- C4 amended: `check_pii` returns true iff some keyword of the code's fixed
15-element list (`social security, ssn, date of birth, dob, driver license,
passport, bank account, credit card, tax id, phone, email, address, salary,
income, signature` — no routing number, employer, city, state or zip entries)
is a substring of the lower-cased input; it is case-insensitive, accepts the
SSN example and rejects the sky example. -/
theorem check_pii_fixed_keyword_characterization (t : String) :
    (check_pii t = true ↔ ∃ kw ∈ PII_KEYWORDS, kw.data <:+: (pyLower t).data) ∧
    check_pii (pyLower t) = check_pii t ∧
    check_pii "My SSN is 123-45-6789" = true ∧
    check_pii "The sky is blue" = false ∧
    check_pii "Social Security Number" = check_pii "SOCIAL SECURITY NUMBER" := by
  refine ⟨?_, ?_, by decide, by decide, by decide⟩
  · simp [check_pii, List.any_eq_true, pyContains_iff_infix]
  · unfold check_pii
    rw [pyLower_idem]

/-- C7 counterexample: `"Yes:"` starts with the checkbox marker `"yes"` and
contains no signature pattern, yet it classifies as `"Label"`, not
`"Checkbox"`: the Label rule precedes the Checkbox rule.  Moreover the `'□'`
glyph is not in the code's marker list: a text starting with `'□'` falls
through to `"Text"`. -/
theorem classify_yes_colon_is_label :
    pyStartsWith (pyStrip (pyLower "Yes:")) "yes" = true ∧
    signatureCond "Yes:" = false ∧
    classify_text_type "Yes:" ⟨0, 200, 50, 210⟩ 600 800 = "Label" ∧
    classify_text_type "□ Option one" ⟨0, 200, 50, 210⟩ 600 800 = "Text" := by
  decide

/-- C7 amended: when the Section Header and Label rules do not match and the
trimmed lower-cased text starts with one of `yes, no, [ ], [x], ☐, ☑`
(`'□'` is absent from the code's list), the classifier returns
`"Checkbox"`; the Checkbox rule itself precedes the Signature rule, so no
signature-freeness hypothesis is needed. -/
theorem classify_checkbox_after_header_label
    (text : String) (bbox : Rect4) (page_width page_height : Int)
    (hheader : (headerCond text bbox page_height && headerKwCond text) = false)
    (hlabel : labelCond text = false)
    (hcb : checkboxCond text = true) :
    classify_text_type text bbox page_width page_height = "Checkbox" := by
  unfold classify_text_type
  rw [hheader, hlabel, hcb]
  simp

/-- C7 witness: a y/n answer sentence that matches no earlier rule is
classified `"Checkbox"`. -/
theorem classify_checkbox_after_header_label_witness :
    (headerCond "Yes, I agree to the terms" ⟨0, 500, 100, 510⟩ 800 &&
      headerKwCond "Yes, I agree to the terms") = false ∧
    labelCond "Yes, I agree to the terms" = false ∧
    checkboxCond "Yes, I agree to the terms" = true ∧
    classify_text_type "Yes, I agree to the terms" ⟨0, 500, 100, 510⟩ 600 800 = "Checkbox" :=
  ⟨by decide, by decide, by decide,
    classify_checkbox_after_header_label "Yes, I agree to the terms"
      ⟨0, 500, 100, 510⟩ 600 800 (by decide) (by decide) (by decide)⟩

/-- C8: any text longer than 100 characters that triggers neither the
signature patterns, nor a checkbox marker, nor a section-header keyword is
classified `"Instructions"` (the Section Header and Label rules are already
excluded by their own length bounds of 50 and 40). -/
theorem classify_long_text_instructions
    (text : String) (bbox : Rect4) (page_width page_height : Int)
    (hlen : 100 < pyLen text)
    (hsig : signatureCond text = false)
    (hcb : checkboxCond text = false)
    (hkw : headerKwCond text = false) :
    classify_text_type text bbox page_width page_height = "Instructions" := by
  have h50 : ¬ (pyLen text < 50) := by omega
  have h40 : ¬ (pyLen text < 40) := by omega
  unfold classify_text_type headerCond labelCond
  simp [h50, h40, hsig, hcb, hkw, hlen]

/-- C8 witness: a 110-character keyword-free text is classified
`"Instructions"`. -/
theorem classify_long_text_instructions_witness :
    100 < pyLen "aaaaaaaaaaaaaaaaaaaaaaaaaaaaaaaaaaaaaaaaaaaaaaaaaaaaaaaaaaaaaaaaaaaaaaaaaaaaaaaaaaaaaaaaaaaaaaaaaaaaaaaaaa" ∧
    signatureCond "aaaaaaaaaaaaaaaaaaaaaaaaaaaaaaaaaaaaaaaaaaaaaaaaaaaaaaaaaaaaaaaaaaaaaaaaaaaaaaaaaaaaaaaaaaaaaaaaaaaaaaaaaa" = false ∧
    checkboxCond "aaaaaaaaaaaaaaaaaaaaaaaaaaaaaaaaaaaaaaaaaaaaaaaaaaaaaaaaaaaaaaaaaaaaaaaaaaaaaaaaaaaaaaaaaaaaaaaaaaaaaaaaaa" = false ∧
    headerKwCond "aaaaaaaaaaaaaaaaaaaaaaaaaaaaaaaaaaaaaaaaaaaaaaaaaaaaaaaaaaaaaaaaaaaaaaaaaaaaaaaaaaaaaaaaaaaaaaaaaaaaaaaaaa" = false ∧
    classify_text_type
      "aaaaaaaaaaaaaaaaaaaaaaaaaaaaaaaaaaaaaaaaaaaaaaaaaaaaaaaaaaaaaaaaaaaaaaaaaaaaaaaaaaaaaaaaaaaaaaaaaaaaaaaaaa"
      ⟨0, 500, 100, 510⟩ 600 800 = "Instructions" :=
  ⟨by decide, by decide, by decide, by decide,
    classify_long_text_instructions _ ⟨0, 500, 100, 510⟩ 600 800
      (by decide) (by decide) (by decide) (by decide)⟩

/-! ## Section grouper (`main.py` lines 397-459)

`group_segments_by_section` enumerates the segments with their original
indices, sorts them (stably) by `(page_number, top)`, then sweeps once,
flushing the current section on a vertical gap, on a size cap, or on a
header. -/

/-- The sweep's `is_header` test (`main.py` lines 421-423). -/
def seg_is_header (seg : FormSegment) : Bool :=
  decide (seg.type = "Header" ∨ seg.type = "Title") || pyIsUpper seg.text ||
    pyEndsWith (pyStrip seg.text) ":"

/-- The new-section condition of `main.py` lines 425-428:
`abs(seg.top - last_y) > 50`, or 15+ segments in the current section, or a
header while the current section is non-empty. -/
def sweepBreakCond (cur : List (Nat × FormSegment)) (lastY : Option Int)
    (seg : FormSegment) : Bool :=
  (match lastY with
   | none => false
   | some y => decide (50 < |seg.top - y|)) ||
  decide (15 ≤ cur.length) || (seg_is_header seg && !cur.isEmpty)

/-- The scan of `_generate_section_title` over the first three members. -/
def titleScan : List FormSegment → Option String
  | [] => none
  | s :: rest =>
      if s.type = "Header" ∨ s.type = "Title" then some (pyTake s.text 50)
      else if pyEndsWith (pyStrip s.text) ":" then
        some (pyTake (pyStrip (removeColons s.text)) 50)
      else titleScan rest

/-- `_generate_section_title` from `main.py` lines 449-459. -/
def generate_section_title (segs : List FormSegment) (section_num : Nat) : String :=
  match titleScan (segs.take 3) with
  | some t => t
  | none => "Section " ++ toString section_num

/-- The sweep loop of `group_segments_by_section` (`main.py` lines 415-444),
carrying the pending sorted segments, the current section, `last_y` and the
section counter.  The Python flush-then-append body is the first branch; a
non-breaking element is appended to the current section. -/
def sectionSweep :
    List (Nat × FormSegment) → List (Nat × FormSegment) → Option Int → Nat →
      List (String × List (Nat × FormSegment))
  | [], cur, _, counter =>
      if cur.isEmpty then []
      else [(generate_section_title (cur.map (fun x => x.2)) (counter + 1), cur)]
  | (idx, seg) :: rest, cur, lastY, counter =>
      if sweepBreakCond cur lastY seg && !cur.isEmpty then
        (generate_section_title (cur.map (fun x => x.2)) (counter + 1), cur) ::
          sectionSweep rest [(idx, seg)] (some seg.top) (counter + 1)
      else
        sectionSweep rest (cur ++ [(idx, seg)]) (some seg.top) counter

/-- The comparator of `indexed_segments.sort(key=lambda x: (x[1].page_number,
x[1].top))`: lexicographic `(page_number, top)` order.  Python's sort is
stable, as is `List.mergeSort`. -/
def pageTopLe (a b : Nat × FormSegment) : Bool :=
  decide (a.2.page_number < b.2.page_number) ||
  (decide (a.2.page_number = b.2.page_number) && decide (a.2.top ≤ b.2.top))

/-- `group_segments_by_section` from `main.py` lines 397-446. -/
def group_segments_by_section (segments : List FormSegment) :
    List (String × List (Nat × FormSegment)) :=
  if segments.isEmpty then []
  else sectionSweep (segments.enum.mergeSort pageTopLe) [] none 0

/-- Concatenating the member lists of the sweep's sections, in emission
order, reproduces the current section followed by the pending input. -/
theorem sectionSweep_flatten (pending : List (Nat × FormSegment)) :
    ∀ (cur : List (Nat × FormSegment)) (lastY : Option Int) (counter : Nat),
      (sectionSweep pending cur lastY counter).flatMap (fun sec => sec.2)
        = cur ++ pending := by
  induction pending with
  | nil =>
    intro cur lastY counter
    by_cases hc : cur.isEmpty
    · simp [sectionSweep, hc, List.isEmpty_iff.mp hc]
    · simp [sectionSweep, hc]
  | cons hd rest ih =>
    intro cur lastY counter
    obtain ⟨idx, seg⟩ := hd
    rw [sectionSweep]
    split
    · simp [List.flatMap_cons, ih]
    · simp [ih]

/-- Every section the sweep emits has at most 15 members, given the current
section respects the cap. -/
theorem sectionSweep_sizes (pending : List (Nat × FormSegment)) :
    ∀ (cur : List (Nat × FormSegment)) (lastY : Option Int) (counter : Nat),
      cur.length ≤ 15 →
      ∀ sec ∈ sectionSweep pending cur lastY counter, sec.2.length ≤ 15 := by
  induction pending with
  | nil =>
    intro cur lastY counter hcur sec hsec
    by_cases hc : cur.isEmpty
    · simp [sectionSweep, hc] at hsec
    · simp [sectionSweep, hc] at hsec
      rw [hsec]
      exact hcur
  | cons hd rest ih =>
    intro cur lastY counter hcur sec hsec
    obtain ⟨idx, seg⟩ := hd
    rw [sectionSweep] at hsec
    by_cases hbrk : (sweepBreakCond cur lastY seg && !cur.isEmpty) = true
    · rw [if_pos hbrk] at hsec
      rcases List.mem_cons.mp hsec with h | h
      · rw [h]
        exact hcur
      · exact ih _ _ _ (by simp) sec h
    · rw [if_neg hbrk] at hsec
      refine ih _ _ _ ?_ sec hsec
      by_cases hc : cur.isEmpty = true
      · simp [List.isEmpty_iff.mp hc]
      · have hc' : cur.isEmpty = false := Bool.eq_false_iff.mpr hc
        have hA : sweepBreakCond cur lastY seg = false := by
          cases hB : sweepBreakCond cur lastY seg with
          | false => rfl
          | true =>
            exfalso
            apply hbrk
            rw [hB, hc']
            rfl
        have h15 : ¬ (15 ≤ cur.length) := by
          intro hge
          have htr : sweepBreakCond cur lastY seg = true := by
            unfold sweepBreakCond
            rw [decide_eq_true hge]
            simp
          rw [hA] at htr
          cases htr
        simp only [List.length_append, List.length_cons, List.length_nil]
        omega

/-- C6: concatenating the member lists of all sections returned by
`group_segments_by_section`, in emission order, yields exactly the
`(page_number, top)`-sorted enumerated segment list; that concatenation is a
permutation of the enumerated input (each segment exactly once); and every
section has at most 15 members. -/
theorem group_by_section_roundtrip (segments : List FormSegment) :
    ((group_segments_by_section segments).flatMap (fun sec => sec.2))
      = (segments.enum).mergeSort pageTopLe ∧
    ((group_segments_by_section segments).flatMap (fun sec => sec.2)).Perm
      segments.enum ∧
    (group_segments_by_section segments).all
      (fun sec => sec.2.length ≤ 15) = true := by
  have hflat : ((group_segments_by_section segments).flatMap (fun sec => sec.2))
      = (segments.enum).mergeSort pageTopLe := by
    unfold group_segments_by_section
    by_cases h : segments.isEmpty
    · rw [if_pos h, List.isEmpty_iff.mp h]
      simp
    · rw [if_neg h]
      rw [sectionSweep_flatten _ [] none 0]
      rfl
  refine ⟨hflat, ?_, ?_⟩
  · rw [hflat]
    exact List.mergeSort_perm segments.enum pageTopLe
  · rw [List.all_eq_true]
    intro sec hsec
    unfold group_segments_by_section at hsec
    by_cases h : segments.isEmpty
    · rw [if_pos h] at hsec
      exact absurd hsec (List.not_mem_nil sec)
    · rw [if_neg h] at hsec
      simpa using sectionSweep_sizes _ [] none 0 (by simp) sec hsec

/-- C10: the sweep compares successive tops through `abs(seg.top - last_y)`,
so an upward jump of more than 50 units (as at a page transition, where `top`
resets) also opens a new section: two sorted segments on consecutive pages
whose tops jump upward by more than 50 end up in two distinct singleton
sections. -/
theorem section_break_on_upward_jump (a b : FormSegment)
    (hpage : a.page_number < b.page_number)
    (hjump : b.top + 50 < a.top) :
    (group_segments_by_section [a, b]).map (fun sec => sec.2)
      = [[(0, a)], [(1, b)]] := by
  have hsorted : ([(0, a), (1, b)] : List (Nat × FormSegment)).mergeSort pageTopLe
      = [(0, a), (1, b)] := by
    apply List.mergeSort_of_sorted
    refine List.pairwise_cons.mpr ⟨?_, by simp⟩
    intro x hx
    rw [List.mem_singleton.mp hx]
    simp [pageTopLe, hpage]
  have henum : ([a, b] : List FormSegment).enum = [(0, a), (1, b)] := rfl
  have hgap : (50 : Int) < |b.top - a.top| := by
    rw [abs_sub_comm, abs_of_pos (by omega : (0 : Int) < a.top - b.top)]
    omega
  have step1 : sectionSweep [(0, a), (1, b)] [] none 0
      = sectionSweep [(1, b)] [(0, a)] (some a.top) 0 := by
    rw [sectionSweep]
    simp
  have hcond : (sweepBreakCond [(0, a)] (some a.top) b &&
      !(List.isEmpty [(0, a)])) = true := by
    simp [sweepBreakCond, hgap]
  have step2 : sectionSweep [(1, b)] [(0, a)] (some a.top) 0
      = (generate_section_title [a] 1, [(0, a)]) ::
          sectionSweep [] [(1, b)] (some b.top) 1 := by
    rw [sectionSweep.eq_2, if_pos hcond]
    rfl
  have step3 : sectionSweep ([] : List (Nat × FormSegment)) [(1, b)] (some b.top) 1
      = [(generate_section_title [b] 2, [(1, b)])] := by
    rw [sectionSweep]
    rfl
  have hne : ¬ (([a, b] : List FormSegment).isEmpty = true) := by simp
  unfold group_segments_by_section
  rw [if_neg hne, henum, hsorted, step1, step2, step3]
  rfl

/-- A concrete segment near the bottom of page 1. -/
def jumpSegA : FormSegment := ⟨"line one", "Text", 1, 700, 10, 100, 10, 600, 800, false⟩

/-- A concrete segment near the top of page 2: after the page transition its
`top` resets upward by far more than 50 units. -/
def jumpSegB : FormSegment := ⟨"line two", "Text", 2, 30, 10, 100, 10, 600, 800, false⟩

/-- C10 witness: the page-transition pair is split into two singleton
sections. -/
theorem section_break_on_upward_jump_witness :
    jumpSegA.page_number < jumpSegB.page_number ∧
    jumpSegB.top + 50 < jumpSegA.top ∧
    (group_segments_by_section [jumpSegA, jumpSegB]).map (fun sec => sec.2)
      = [[(0, jumpSegA)], [(1, jumpSegB)]] :=
  ⟨by decide, by decide,
    section_break_on_upward_jump jumpSegA jumpSegB (by decide) (by decide)⟩

end Resyft
